import Mathlib

/-!
Verification of the z/OS Files request-building layer
(`src/zos_files/zowe/zos_files_for_zowe_sdk/files.py`).

The module is a synchronous request builder: every operation assembles an
HTTP request descriptor (method, URL, body, expected status codes) and
hands it to an external request handler.  We embed each operation as a
pure Lean function from its arguments to either a `RequestDescriptor` or
an error value; an `Except.error` result corresponds to the Python call
raising before `perform_request` is invoked.  Request headers and the
external HTTP collaborator are outside the embedded fragment.

Python dicts used as JSON bodies are modelled as insertion-ordered
association lists; `None` values map to `Option.none` / `JVal.jnull`.
-/

namespace ZowePySdk

/-- A JSON value as the SDK builds them: strings, integers, booleans
serialized by `json.dumps` arrive as strings, nested dicts become objects
(insertion-ordered key/value lists), Python `None` becomes `jnull`. -/
inductive JVal where
  | jstr (s : String)
  | jint (n : Int)
  | jobj (fields : List (String × JVal))
  | jnull

/-- The option mapping accepted by `create_data_set`.  A field is `none`
when the key is absent from the Python dict or mapped to `None` (the code
tests both with `options.get(key) is None`).  Field names are the Python
option keys, in the fixed order of the validation tuple. -/
structure DatasetOptions where
  volser : Option String := none
  unit : Option String := none
  dsorg : Option String := none
  alcunit : Option String := none
  primary : Option Int := none
  secondary : Option Int := none
  dirblk : Option Int := none
  avgblk : Option Int := none
  recfm : Option String := none
  blksize : Option Int := none
  lrecl : Option Int := none
  storclass : Option String := none
  mgntclass : Option String := none
  dataclass : Option String := none
  dsntype : Option String := none
  like : Option String := none
deriving DecidableEq, Repr

/-- A request body: nothing, a JSON object, the (possibly normalized)
dataset options dict, the zFS options dict, or raw text data. -/
inductive Body where
  | empty
  | json (j : JVal)
  | dsOptions (o : DatasetOptions)
  | zfsOptions (opts : List (String × Int))
  | raw (data : String)

/-- The request a Python operation hands to `perform_request`: HTTP method,
URL, body, and the `expected_code` list (`none` when the call does not pass
one and the handler default applies). -/
structure RequestDescriptor where
  method : String
  url : String
  body : Body
  expected : Option (List Nat)

/-- `true` iff the embedded call raised instead of building a request. -/
def isErr {ε α : Type} : Except ε α → Bool
  | .error _ => true
  | .ok _ => false

/-! ### Python string helpers -/

/-- Python `str.lstrip("/")`: remove every leading `/` character. -/
def py_lstrip_slash (s : String) : String :=
  ⟨s.toList.dropWhile (fun c => c = '/')⟩

/-- Python `str.isspace` over the ASCII whitespace characters recognised by
`str.strip()` with no argument. -/
def isPySpace (c : Char) : Bool :=
  c = ' ' ∨ c = '\t' ∨ c = '\n' ∨ c = '\x0d' ∨ c = '\x0b' ∨ c = '\x0c'

/-- Strip characters satisfying `p` from both ends of a list. -/
def stripList (p : Char → Bool) (l : List Char) : List Char :=
  List.rdropWhile p (l.dropWhile p)

/-- Python `str.strip()`: remove leading and trailing whitespace. -/
def py_strip (s : String) : String :=
  ⟨stripList isPySpace s.toList⟩

/-- Python `json.dumps` applied to a bool: the string `"true"` / `"false"`. -/
def py_json_dumps_bool (b : Bool) : String :=
  if b then "true" else "false"

/-! ### `create_data_set`

The validation loop iterates over the fixed tuple
`(volser, unit, dsorg, alcunit, primary, secondary, dirblk, avgblk, recfm,
blksize, lrecl, storclass, mgntclass, dataclass, dsntype, like)` and only
the names with a dedicated `if opt == …` block act; the loop is therefore
the sequential composition of the seven step functions below.  Python
mutates the caller's `options` dict in place, so every step threads the
mapping and every error carries the mapping's state at raise time. -/

/-- The distinct raise sites of `create_data_set`'s validation.
`missingPrimaryLrecl` is the `ValueError` raised when `like` is absent and
`primary` or `lrecl` is missing (the spec's `MissingRequiredOption` kind);
`invalidDsorg`, `invalidAlcunit`, `invalidRecfm` are the bare `KeyError`s
for bad enumeration members; `primaryTooLarge`, `secondaryTooLarge`,
`invalidDirblk` are the bare `ValueError`s (the spec's `InvalidOptionValue`
kind). -/
inductive CreateDsError where
  | missingPrimaryLrecl
  | invalidDsorg
  | invalidAlcunit
  | primaryTooLarge
  | secondaryTooLarge
  | invalidDirblk
  | invalidRecfm
deriving DecidableEq, Repr

/-- `if opt == "dsorg"`: a present `dsorg` must be `"PO"` or `"PS"`. -/
def step_dsorg (o : DatasetOptions) :
    Except (CreateDsError × DatasetOptions) DatasetOptions :=
  match o.dsorg with
  | none => .ok o
  | some d => if d = "PO" ∨ d = "PS" then .ok o else .error (.invalidDsorg, o)

/-- `if opt == "alcunit"`: default to `"TRK"` when absent, otherwise require
`"CYL"` or `"TRK"`. -/
def step_alcunit (o : DatasetOptions) :
    Except (CreateDsError × DatasetOptions) DatasetOptions :=
  match o.alcunit with
  | none => .ok { o with alcunit := some "TRK" }
  | some a => if a = "CYL" ∨ a = "TRK" then .ok o else .error (.invalidAlcunit, o)

/-- `if opt == "primary"`: a present `primary` must not exceed 16777215. -/
def step_primary (o : DatasetOptions) :
    Except (CreateDsError × DatasetOptions) DatasetOptions :=
  match o.primary with
  | none => .ok o
  | some p => if 16777215 < p then .error (.primaryTooLarge, o) else .ok o

/-- `if opt == "secondary"`: when `primary` is present, default `secondary`
to `int(primary / 10)` (truncation toward zero, `Int.tdiv`) and then
require `secondary ≤ 16777215`.  When `primary` is absent nothing happens. -/
def step_secondary (o : DatasetOptions) :
    Except (CreateDsError × DatasetOptions) DatasetOptions :=
  match o.primary with
  | none => .ok o
  | some p =>
    match o.secondary with
    | none =>
      if 16777215 < Int.tdiv p 10 then
        .error (.secondaryTooLarge, { o with secondary := some (Int.tdiv p 10) })
      else .ok { o with secondary := some (Int.tdiv p 10) }
    | some s => if 16777215 < s then .error (.secondaryTooLarge, o) else .ok o

/-- `if opt == "dirblk"`: a present `dirblk` must be 0 under `dsorg == "PS"`
and nonzero under `dsorg == "PO"`; any other `dsorg` passes. -/
def step_dirblk (o : DatasetOptions) :
    Except (CreateDsError × DatasetOptions) DatasetOptions :=
  match o.dirblk with
  | none => .ok o
  | some d =>
    if o.dsorg = some "PS" then
      if d ≠ 0 then .error (.invalidDirblk, o) else .ok o
    else if o.dsorg = some "PO" then
      if d = 0 then .error (.invalidDirblk, o) else .ok o
    else .ok o

/-- `if opt == "recfm"`: default to `"F"` when absent, otherwise require one
of `"F"`, `"FB"`, `"V"`, `"VB"`, `"U"`. -/
def step_recfm (o : DatasetOptions) :
    Except (CreateDsError × DatasetOptions) DatasetOptions :=
  match o.recfm with
  | none => .ok { o with recfm := some "F" }
  | some r =>
    if r = "F" ∨ r = "FB" ∨ r = "V" ∨ r = "VB" ∨ r = "U" then .ok o
    else .error (.invalidRecfm, o)

/-- `if opt == "blksize"`: when `blksize` is absent and `lrecl` present,
copy `lrecl` into `blksize`.  Never raises. -/
def step_blksize (o : DatasetOptions) : DatasetOptions :=
  match o.blksize with
  | some _ => o
  | none =>
    match o.lrecl with
    | some l => { o with blksize := some l }
    | none => o

/-- The whole validation/normalization block of `create_data_set`: skipped
entirely when `like` is present; otherwise `primary` and `lrecl` are
required and the step functions run in the tuple's order. -/
def normalize_dataset_options (o : DatasetOptions) :
    Except (CreateDsError × DatasetOptions) DatasetOptions :=
  match o.like with
  | some _ => .ok o
  | none =>
    if o.primary = none ∨ o.lrecl = none then .error (.missingPrimaryLrecl, o)
    else
      (step_dsorg o).bind fun o1 =>
      (step_alcunit o1).bind fun o2 =>
      (step_primary o2).bind fun o3 =>
      (step_secondary o3).bind fun o4 =>
      (step_dirblk o4).bind fun o5 =>
      (step_recfm o5).bind fun o6 => .ok (step_blksize o6)

/-- `create_data_set(dataset_name, options)`: validate/normalize, then POST
the options to `{endpoint}ds/{dataset_name}` expecting 201. -/
def create_data_set (ep dataset_name : String) (options : DatasetOptions) :
    Except (CreateDsError × DatasetOptions) RequestDescriptor :=
  (normalize_dataset_options options).map fun o =>
    { method := "POST", url := ep ++ "ds/" ++ dataset_name,
      body := .dsOptions o, expected := some [201] }

/-- `create_default_data_set(dataset_name, default_type)`: reject a type
outside the five preset names, otherwise POST the fixed preset body to
`{endpoint}ds/{dataset_name}` expecting 201. -/
def create_default_data_set (ep dataset_name default_type : String) :
    Except String RequestDescriptor :=
  if default_type = "partitioned" ∨ default_type = "sequential" ∨
      default_type = "classic" ∨ default_type = "c" ∨ default_type = "binary" then
    let body : JVal :=
      if default_type = "partitioned" then
        .jobj [("alcunit", .jstr "CYL"), ("dsorg", .jstr "PO"), ("primary", .jint 1),
               ("dirblk", .jint 5), ("recfm", .jstr "FB"), ("blksize", .jint 6160),
               ("lrecl", .jint 80)]
      else if default_type = "sequential" then
        .jobj [("alcunit", .jstr "CYL"), ("dsorg", .jstr "PS"), ("primary", .jint 1),
               ("recfm", .jstr "FB"), ("blksize", .jint 6160), ("lrecl", .jint 80)]
      else if default_type = "classic" then
        .jobj [("alcunit", .jstr "CYL"), ("dsorg", .jstr "PO"), ("primary", .jint 1),
               ("recfm", .jstr "FB"), ("blksize", .jint 6160), ("lrecl", .jint 80),
               ("dirblk", .jint 25)]
      else if default_type = "c" then
        .jobj [("dsorg", .jstr "PO"), ("alcunit", .jstr "CYL"), ("primary", .jint 1),
               ("recfm", .jstr "VB"), ("blksize", .jint 32760), ("lrecl", .jint 260),
               ("dirblk", .jint 25)]
      else
        .jobj [("dsorg", .jstr "PO"), ("alcunit", .jstr "CYL"), ("primary", .jint 10),
               ("recfm", .jstr "U"), ("blksize", .jint 27998), ("lrecl", .jint 27998),
               ("dirblk", .jint 25)]
    .ok { method := "POST", url := ep ++ "ds/" ++ dataset_name,
          body := .json body, expected := some [201] }
  else .error "Invalid type for default data set."

/-! ### USS operations -/

/-- `get_file_content(filepath_name)`: GET on `"{}fs{}"` — the path is
appended verbatim after `fs`, with no stripping and no separating slash. -/
def get_file_content (ep filepath_name : String) : RequestDescriptor :=
  { method := "GET", url := ep ++ "fs" ++ filepath_name,
    body := .empty, expected := none }

/-- `delete_uss(filepath_name, recursive)`: DELETE on
`"{}fs/{}"` with the leading slashes stripped from the path, expecting 204.
The `recursive` flag only toggles the `X-IBM-Option` header, which is
outside the modelled descriptor. -/
def delete_uss (ep filepath_name : String) (recursive : Bool) : RequestDescriptor :=
  { method := "DELETE", url := ep ++ "fs/" ++ py_lstrip_slash filepath_name,
    body := .empty, expected := some [204] }

/-- `create_uss(file_path, type, mode)`: POST `{"type": …, "mode": …}` to
`"{}fs/{}"` with the leading slashes stripped from the path, expecting 201. -/
def create_uss (ep file_path type : String) (mode : Option String) : RequestDescriptor :=
  { method := "POST", url := ep ++ "fs/" ++ py_lstrip_slash file_path,
    body := .json (.jobj [("type", .jstr type),
      ("mode", match mode with | some m => .jstr m | none => .jnull)]),
    expected := some [201] }

/-- `write_to_uss(filepath_name, data)`: PUT the raw data to `"{}fs/{}"`
with the leading slashes stripped from the path, expecting 204 or 201. -/
def write_to_uss (ep filepath_name data : String) : RequestDescriptor :=
  { method := "PUT", url := ep ++ "fs/" ++ py_lstrip_slash filepath_name,
    body := .raw data, expected := some [204, 201] }

/-! ### `create_zFS_file_system` -/

/-- Modelled from the spec: the constant lives in the
`zowe.zos_files_for_zowe_sdk.constants` module, which is not among the
sources; the spec and the unit tests fix the maximum allocation quantity at
16,777,215. -/
def MaxAllocationQuantity : Int := 16777215

/-- The two typed exceptions of `create_zFS_file_system`. -/
inductive ZfsError where
  | invalidPermsOption (value : Int)
  | maxAllocationQuantityExceeded
deriving DecidableEq, Repr

/-- Modelled from the spec: the exception classes live in the
`zowe.zos_files_for_zowe_sdk.exceptions` module, which is not among the
sources; the spec and the unit tests give their messages as
`"Invalid zos-files create command 'perms' option: <value>"` and
`"Maximum allocation quantity of 16777215 exceeded"`. -/
def zfsErrorMessage : ZfsError → String
  | .invalidPermsOption v =>
      "Invalid zos-files create command 'perms' option: " ++ toString v
  | .maxAllocationQuantityExceeded =>
      "Maximum allocation quantity of 16777215 exceeded"

/-- The `for key, value in options.items()` loop of
`create_zFS_file_system`: the first offending entry in iteration order
raises.  `perms` must lie in `[0, 777]` (decimal bounds, as in the code);
`cylsPri` and `cylsSec` must not exceed `MaxAllocationQuantity`. -/
def check_zfs_options : List (String × Int) → Option ZfsError
  | [] => none
  | (key, value) :: rest =>
    if key = "perms" ∧ (value < 0 ∨ 777 < value) then
      some (.invalidPermsOption value)
    else if (key = "cylsPri" ∨ key = "cylsSec") ∧ MaxAllocationQuantity < value then
      some .maxAllocationQuantityExceeded
    else check_zfs_options rest

/-- `create_zFS_file_system(file_system_name, options)`: validate the
options, then POST them to `{endpoint}mfs/zfs/{file_system_name}`
expecting 201. -/
def create_zFS_file_system (ep file_system_name : String)
    (options : List (String × Int)) : Except ZfsError RequestDescriptor :=
  match check_zfs_options options with
  | some e => .error e
  | none =>
    .ok { method := "POST", url := ep ++ "mfs/zfs/" ++ file_system_name,
          body := .zfsOptions options, expected := some [201] }

/-! ### Rename operations -/

/-- `rename_dataset(before_dataset_name, after_dataset_name)`: PUT
`{"request": "rename", "from-dataset": {"dsn": before.strip()}}` to
`{endpoint}ds/{after.strip()}` expecting 200. -/
def rename_dataset (ep before_dataset_name after_dataset_name : String) :
    RequestDescriptor :=
  { method := "PUT",
    url := ep ++ "ds/" ++ py_strip after_dataset_name,
    body := .json (.jobj [("request", .jstr "rename"),
      ("from-dataset", .jobj [("dsn", .jstr (py_strip before_dataset_name))])]),
    expected := some [200] }

/-- `rename_dataset_member(dataset_name, before_member_name,
after_member_name, enq)`: a non-empty `enq` other than `"SHRW"` / `"EXCLU"`
raises `ValueError("Invalid value for enq.")`; an accepted `enq` is added
(stripped) to the `from-dataset` object.  The PUT goes to
`{endpoint}ds/{dataset_name.strip()}({after_member_name.strip()})`
expecting 200. -/
def rename_dataset_member (ep dataset_name before_member_name
    after_member_name enq : String) : Except String RequestDescriptor :=
  let fromDs := [("dsn", JVal.jstr (py_strip dataset_name)),
                 ("member", JVal.jstr (py_strip before_member_name))]
  let pathToMember :=
    py_strip dataset_name ++ "(" ++ py_strip after_member_name ++ ")"
  if enq = "" then
    .ok { method := "PUT", url := ep ++ "ds/" ++ pathToMember,
          body := .json (.jobj [("request", .jstr "rename"),
            ("from-dataset", .jobj fromDs)]),
          expected := some [200] }
  else if enq = "SHRW" ∨ enq = "EXCLU" then
    .ok { method := "PUT", url := ep ++ "ds/" ++ pathToMember,
          body := .json (.jobj [("request", .jstr "rename"),
            ("from-dataset", .jobj (fromDs ++ [("enq", JVal.jstr (py_strip enq))]))]),
          expected := some [200] }
  else .error "Invalid value for enq."

/-! ### `copy_from_file` -/

/-- Modelled from the spec: `copy_from_file` is absent from the sources
(only its unit tests are present).  Per the spec, the `type` must be one of
`text`, `binary`, `executable`, otherwise the call fails with
`ValueError("Invalid value for type.")` before any request is built; the
body is `{"request": "copy", "from-file": {"filename": …, "type": …}}` with
`replace` serialized by `json.dumps` only when the type is `"text"`; the
PUT goes to `{endpoint}ds/{to_dataset_name}` expecting 200. -/
def copy_from_file (ep from_filename to_dataset_name type : String)
    (replace : Bool) : Except String RequestDescriptor :=
  if type = "text" ∨ type = "binary" ∨ type = "executable" then
    let fromFile := [("filename", JVal.jstr from_filename),
                     ("type", JVal.jstr type)]
    let fields := [("request", JVal.jstr "copy"), ("from-file", JVal.jobj fromFile)]
    let fields :=
      if type = "text" then
        fields ++ [("replace", JVal.jstr (py_json_dumps_bool replace))]
      else fields
    .ok { method := "PUT", url := ep ++ "ds/" ++ to_dataset_name,
          body := .json (.jobj fields), expected := some [200] }
  else .error "Invalid value for type."

/-! ### Observations on the embedded operations -/

/-- What `create_data_set`'s validation loop may do to the caller's
mapping: every key the caller set keeps its value, and only `alcunit`,
`secondary`, `recfm` and `blksize` — the normalized keys — may be filled in
when unset.  All other keys are untouched. -/
def framePreserved (o o' : DatasetOptions) : Prop :=
  o'.volser = o.volser ∧ o'.unit = o.unit ∧ o'.dsorg = o.dsorg ∧
  (∀ a, o.alcunit = some a → o'.alcunit = some a) ∧
  o'.primary = o.primary ∧
  (∀ s, o.secondary = some s → o'.secondary = some s) ∧
  o'.dirblk = o.dirblk ∧ o'.avgblk = o.avgblk ∧
  (∀ r, o.recfm = some r → o'.recfm = some r) ∧
  (∀ b, o.blksize = some b → o'.blksize = some b) ∧
  o'.lrecl = o.lrecl ∧ o'.storclass = o.storclass ∧ o'.mgntclass = o.mgntclass ∧
  o'.dataclass = o.dataclass ∧ o'.dsntype = o.dsntype ∧ o'.like = o.like

/-- The caller's mapping after a (partial) run: the normalized mapping on
success, the mapping at raise time on failure — Python mutates the dict in
place, so the caller observes exactly this state in both cases. -/
def resultState : Except (CreateDsError × DatasetOptions) DatasetOptions → DatasetOptions
  | .ok o => o
  | .error (_, o) => o

/-! ### Helper lemmas: stripping is idempotent -/

theorem stripList_idem (p : Char → Bool) (l : List Char) :
    stripList p (stripList p l) = stripList p l := by
  unfold stripList
  have hdrop : (List.rdropWhile p (l.dropWhile p)).dropWhile p
      = List.rdropWhile p (l.dropWhile p) := by
    obtain ⟨t, ht⟩ := List.rdropWhile_prefix p (l.dropWhile p)
    cases hB : List.rdropWhile p (l.dropWhile p) with
    | nil => rfl
    | cons c cs =>
      rw [hB] at ht
      have hd : List.dropWhile p l = c :: (cs ++ t) := by
        rw [← ht]; simp
      have hc : p c = false := by
        have h9 := List.head?_dropWhile_not p l
        rw [hd] at h9
        simpa using h9
      simp [List.dropWhile_cons, hc]
  rw [hdrop, List.rdropWhile_idempotent]

theorem py_strip_idem (s : String) : py_strip (py_strip s) = py_strip s := by
  show (⟨stripList isPySpace (String.toList ⟨stripList isPySpace s.toList⟩)⟩ : String)
      = ⟨stripList isPySpace s.toList⟩
  rw [show String.toList ⟨stripList isPySpace s.toList⟩ = stripList isPySpace s.toList from rfl,
    stripList_idem]

/-! ### C7: default data set presets -/

/-- C7: for every dataset name, `create_default_data_set` with type
`"partitioned"` builds a POST whose JSON body is exactly
`{alcunit: "CYL", dsorg: "PO", primary: 1, dirblk: 5, recfm: "FB",
blksize: 6160, lrecl: 80}` with expected status set `{201}`, and any
`default_type` outside the five preset names fails before any request is
built. -/
theorem claim_C7 (ep name : String) :
    create_default_data_set ep name "partitioned" =
      .ok { method := "POST", url := ep ++ "ds/" ++ name,
            body := .json (.jobj [("alcunit", .jstr "CYL"), ("dsorg", .jstr "PO"),
              ("primary", .jint 1), ("dirblk", .jint 5), ("recfm", .jstr "FB"),
              ("blksize", .jint 6160), ("lrecl", .jint 80)]),
            expected := some [201] } ∧
    ∀ t : String, t ≠ "partitioned" → t ≠ "sequential" → t ≠ "classic" →
      t ≠ "c" → t ≠ "binary" →
      create_default_data_set ep name t
        = .error "Invalid type for default data set." := by
  refine ⟨rfl, ?_⟩
  intro t h1 h2 h3 h4 h5
  simp [create_default_data_set, h1, h2, h3, h4, h5]

theorem claim_C7_witness :
    create_default_data_set "/zosmf/restfiles/" "ZOWE.TEST" "junk"
      = .error "Invalid type for default data set." :=
  (claim_C7 "/zosmf/restfiles/" "ZOWE.TEST").2 "junk" (by decide) (by decide)
    (by decide) (by decide) (by decide)

/-! ### C8: USS path handling -/

/-- C8 counterexample: `get_file_content` appends the path verbatim after
`fs` with no stripping and no separating slash — the path `"abc"` yields
the URL `…/restfiles/fsabc`, not `…/restfiles/fs/abc` as stripping onto the
`fs/` segment would give. -/
theorem claim_C8_counterexample :
    (get_file_content "/zosmf/restfiles/" "abc").url = "/zosmf/restfiles/fsabc" ∧
    "/zosmf/restfiles/fsabc" ≠ "/zosmf/restfiles/fs/abc" :=
  ⟨rfl, by decide⟩

/-- C8 (amended): `delete_uss`, `create_uss` and `write_to_uss` strip the
leading `/` characters from the USS path and concatenate the result onto
the base endpoint and the `fs/` segment; `get_file_content` instead appends
the caller's path verbatim after `fs`, with no stripping and no separating
slash. -/
theorem claim_C8 (ep fp data type : String) (recursive : Bool)
    (mode : Option String) :
    (delete_uss ep fp recursive).url = ep ++ "fs/" ++ py_lstrip_slash fp ∧
    (create_uss ep fp type mode).url = ep ++ "fs/" ++ py_lstrip_slash fp ∧
    (write_to_uss ep fp data).url = ep ++ "fs/" ++ py_lstrip_slash fp ∧
    (get_file_content ep fp).url = ep ++ "fs" ++ fp :=
  ⟨rfl, rfl, rfl, rfl⟩

/-! ### C9: `copy_from_file` -/

/-- C9: `copy_from_file` fails with `ValueError("Invalid value for type.")`
for any type outside {text, binary, executable}, before any request is
built; a valid type builds the PUT request, and the `replace` flag is
serialized (as the `json.dumps` boolean literal) in the body exactly when
the type is `"text"`. -/
theorem claim_C9 (ep src dst : String) (r : Bool) :
    (∀ type : String, type ≠ "text" → type ≠ "binary" → type ≠ "executable" →
      copy_from_file ep src dst type r = .error "Invalid value for type.") ∧
    copy_from_file ep src dst "text" r =
      .ok { method := "PUT", url := ep ++ "ds/" ++ dst,
            body := .json (.jobj [("request", .jstr "copy"),
              ("from-file", .jobj [("filename", .jstr src), ("type", .jstr "text")]),
              ("replace", .jstr (py_json_dumps_bool r))]),
            expected := some [200] } ∧
    copy_from_file ep src dst "binary" r =
      .ok { method := "PUT", url := ep ++ "ds/" ++ dst,
            body := .json (.jobj [("request", .jstr "copy"),
              ("from-file", .jobj [("filename", .jstr src),
                ("type", .jstr "binary")])]),
            expected := some [200] } ∧
    copy_from_file ep src dst "executable" r =
      .ok { method := "PUT", url := ep ++ "ds/" ++ dst,
            body := .json (.jobj [("request", .jstr "copy"),
              ("from-file", .jobj [("filename", .jstr src),
                ("type", .jstr "executable")])]),
            expected := some [200] } := by
  refine ⟨?_, rfl, rfl, rfl⟩
  intro ty h1 h2 h3
  simp [copy_from_file, h1, h2, h3]

theorem claim_C9_witness :
    copy_from_file "/zosmf/restfiles/" "MY.DSN.FILE" "MY.NEW.DSN.FILE" "invalid" false
      = .error "Invalid value for type." :=
  (claim_C9 "/zosmf/restfiles/" "MY.DSN.FILE" "MY.NEW.DSN.FILE" false).1 "invalid"
    (by decide) (by decide) (by decide)

/-! ### C5: `rename_dataset_member` enqueue validation -/

/-- C5 counterexample: with `enq="RANDOM"` the call does fail before any
request is built, but the raised `ValueError` carries the message
`"Invalid value for enq."`, not
`"Invalid value. Valid options are SHRW or EXCLU."` as the claim states. -/
theorem claim_C5_counterexample :
    rename_dataset_member "/zosmf/restfiles/" "MY.DSN" "OLD" "NEW" "RANDOM"
      = .error "Invalid value for enq." ∧
    "Invalid value for enq." ≠ "Invalid value. Valid options are SHRW or EXCLU." :=
  ⟨rfl, by decide⟩

/-- C5 (amended): a non-empty `enq` other than `"SHRW"`/`"EXCLU"` makes
`rename_dataset_member` fail with `ValueError("Invalid value for enq.")`
before any request is built; with `enq="SHRW"` or `"EXCLU"` the operation
builds the PUT request and embeds the (stripped) `enq` value in the
`from-dataset` object of the body. -/
theorem claim_C5 (ep ds old new enq : String) :
    (enq ≠ "" → enq ≠ "SHRW" → enq ≠ "EXCLU" →
      rename_dataset_member ep ds old new enq = .error "Invalid value for enq.") ∧
    (enq = "SHRW" ∨ enq = "EXCLU" →
      rename_dataset_member ep ds old new enq =
        .ok { method := "PUT",
              url := ep ++ "ds/" ++ (py_strip ds ++ "(" ++ py_strip new ++ ")"),
              body := .json (.jobj [("request", .jstr "rename"),
                ("from-dataset", .jobj [("dsn", .jstr (py_strip ds)),
                  ("member", .jstr (py_strip old)),
                  ("enq", .jstr (py_strip enq))])]),
              expected := some [200] }) := by
  constructor
  · intro h1 h2 h3
    simp [rename_dataset_member, h1, h2, h3]
  · rintro (h | h) <;> subst h <;> rfl

theorem claim_C5_witness :
    rename_dataset_member "/zosmf/restfiles/" "MY.DSN" "OLD" "NEW" "SHRW"
      = .ok { method := "PUT", url := "/zosmf/restfiles/ds/MY.DSN(NEW)",
              body := .json (.jobj [("request", .jstr "rename"),
                ("from-dataset", .jobj [("dsn", .jstr "MY.DSN"),
                  ("member", .jstr "OLD"), ("enq", .jstr "SHRW")])]),
              expected := some [200] } ∧
    rename_dataset_member "/zosmf/restfiles/" "MY.DSN" "OLD" "NEW" "RANDOM"
      = .error "Invalid value for enq." :=
  ⟨(claim_C5 "/zosmf/restfiles/" "MY.DSN" "OLD" "NEW" "SHRW").2 (Or.inl rfl),
   (claim_C5 "/zosmf/restfiles/" "MY.DSN" "OLD" "NEW" "RANDOM").1
     (by decide) (by decide) (by decide)⟩

/-! ### C10: rename operations strip the supplied names -/

/-- C10: `rename_dataset` and `rename_dataset_member` strip leading and
trailing whitespace from each supplied dataset/member name before embedding
it in the request URL and the JSON body, so a padded name produces exactly
the same request as the trimmed name. -/
theorem claim_C10 (ep a b ds bm am enq : String) :
    rename_dataset ep a b = rename_dataset ep (py_strip a) (py_strip b) ∧
    rename_dataset_member ep ds bm am enq
      = rename_dataset_member ep (py_strip ds) (py_strip bm) (py_strip am) enq ∧
    (rename_dataset ep a b).url = ep ++ "ds/" ++ py_strip b ∧
    (rename_dataset ep a b).body = .json (.jobj [("request", .jstr "rename"),
      ("from-dataset", .jobj [("dsn", .jstr (py_strip a))])]) := by
  refine ⟨?_, ?_, rfl, rfl⟩
  · simp [rename_dataset, py_strip_idem]
  · simp [rename_dataset_member, py_strip_idem]

/-! ### C3: the `dirblk` check -/

/-- C3: the `dirblk` check of `create_data_set`: with a present `dirblk`
value, `dsorg="PS"` with `dirblk≠0` fails, `dsorg="PO"` with `dirblk=0`
fails, and every other combination of `dsorg` and `dirblk` passes the
check, leaving the mapping unchanged; an absent `dirblk` always passes. -/
theorem claim_C3 (o : DatasetOptions) :
    (o.dirblk = none → step_dirblk o = .ok o) ∧
    ∀ d : Int, o.dirblk = some d →
      ((step_dirblk o = .error (.invalidDirblk, o) ↔
        (o.dsorg = some "PS" ∧ d ≠ 0) ∨ (o.dsorg = some "PO" ∧ d = 0)) ∧
       (step_dirblk o = .ok o ∨ step_dirblk o = .error (.invalidDirblk, o))) := by
  constructor
  · intro h
    simp [step_dirblk, h]
  · intro d hd
    by_cases hps : o.dsorg = some "PS"
    · by_cases hz : d = 0
      · simp [step_dirblk, hd, hps, hz]
      · simp [step_dirblk, hd, hps, hz]
    · by_cases hpo : o.dsorg = some "PO"
      · by_cases hz : d = 0
        · simp [step_dirblk, hd, hps, hpo, hz]
        · simp [step_dirblk, hd, hps, hpo, hz]
      · simp [step_dirblk, hd, hps, hpo]

theorem claim_C3_witness :
    step_dirblk { dsorg := some "PS", dirblk := some 5 }
      = .error (.invalidDirblk, { dsorg := some "PS", dirblk := some 5 }) :=
  ((claim_C3 { dsorg := some "PS", dirblk := some 5 }).2 5 rfl).1.mpr
    (Or.inl ⟨rfl, by decide⟩)

/-! ### C4: zFS option validation -/

theorem check_zfs_some_of_mem_perms : ∀ (opts : List (String × Int)) (v : Int),
    ("perms", v) ∈ opts → (v < 0 ∨ 777 < v) → check_zfs_options opts ≠ none
  | [], v, hmem, _ => by cases hmem
  | (k, w) :: rest, v, hmem, hbad => by
    simp only [check_zfs_options]
    by_cases h1 : k = "perms" ∧ (w < 0 ∨ 777 < w)
    · simp [h1]
    · rw [if_neg h1]
      by_cases h2 : (k = "cylsPri" ∨ k = "cylsSec") ∧ MaxAllocationQuantity < w
      · simp [h2]
      · rw [if_neg h2]
        rcases List.mem_cons.mp hmem with heq | hmem'
        · rw [Prod.mk.injEq] at heq
          exact absurd ⟨heq.1.symm, heq.2 ▸ hbad⟩ h1
        · exact check_zfs_some_of_mem_perms rest v hmem' hbad

theorem check_zfs_some_of_mem_cyls :
    ∀ (opts : List (String × Int)) (k0 : String) (v : Int),
    (k0 = "cylsPri" ∨ k0 = "cylsSec") → (k0, v) ∈ opts →
    MaxAllocationQuantity < v → check_zfs_options opts ≠ none
  | [], _, v, _, hmem, _ => by cases hmem
  | (k, w) :: rest, k0, v, hk, hmem, hbig => by
    simp only [check_zfs_options]
    by_cases h1 : k = "perms" ∧ (w < 0 ∨ 777 < w)
    · simp [h1]
    · rw [if_neg h1]
      by_cases h2 : (k = "cylsPri" ∨ k = "cylsSec") ∧ MaxAllocationQuantity < w
      · simp [h2]
      · rw [if_neg h2]
        rcases List.mem_cons.mp hmem with heq | hmem'
        · rw [Prod.mk.injEq] at heq
          exact absurd ⟨heq.1 ▸ hk, heq.2 ▸ hbig⟩ h2
        · exact check_zfs_some_of_mem_cyls rest k0 v hk hmem' hbig

theorem create_zfs_isErr {ep n : String} {opts : List (String × Int)}
    (h : check_zfs_options opts ≠ none) :
    isErr (create_zFS_file_system ep n opts) = true := by
  cases hc : check_zfs_options opts with
  | none => exact absurd hc h
  | some e => simp [create_zFS_file_system, hc, isErr]

/-- C4: `create_zFS_file_system` validates the supplied options before any
request is built: a `perms` entry outside `[0, 777]` (decimal bounds) makes
the call raise, and so does a `cylsPri`/`cylsSec` entry above the maximum
allocation quantity; a violating `perms` entry at the front of the
iteration raises exactly `InvalidPermsOption(value)`; the two exception
messages are the ones the claim quotes (`perms=-1` in particular). -/
theorem claim_C4 (ep n : String) (opts : List (String × Int)) :
    (∀ v : Int, ("perms", v) ∈ opts → v < 0 ∨ 777 < v →
      isErr (create_zFS_file_system ep n opts) = true) ∧
    (∀ (k : String) (v : Int), k = "cylsPri" ∨ k = "cylsSec" → (k, v) ∈ opts →
      MaxAllocationQuantity < v →
      isErr (create_zFS_file_system ep n opts) = true) ∧
    (∀ (v : Int) (rest : List (String × Int)), v < 0 ∨ 777 < v →
      create_zFS_file_system ep n (("perms", v) :: rest)
        = .error (.invalidPermsOption v)) ∧
    zfsErrorMessage (.invalidPermsOption (-1))
      = "Invalid zos-files create command 'perms' option: -1" ∧
    zfsErrorMessage .maxAllocationQuantityExceeded
      = "Maximum allocation quantity of 16777215 exceeded" := by
  refine ⟨?_, ?_, ?_, rfl, rfl⟩
  · intro v hmem hbad
    exact create_zfs_isErr (check_zfs_some_of_mem_perms opts v hmem hbad)
  · intro k v hk hmem hbig
    exact create_zfs_isErr (check_zfs_some_of_mem_cyls opts k v hk hmem hbig)
  · intro v rest hbad
    simp [create_zFS_file_system, check_zfs_options, hbad]

theorem claim_C4_witness :
    isErr (create_zFS_file_system "/zosmf/restfiles/" "FSNAME"
      [("perms", -1), ("cylsPri", 16777213), ("cylsSec", 16777215)]) = true ∧
    isErr (create_zFS_file_system "/zosmf/restfiles/" "FSNAME"
      [("perms", 775), ("cylsPri", 1677755513), ("cylsSec", 16777215)]) = true ∧
    create_zFS_file_system "/zosmf/restfiles/" "FSNAME" [("perms", 778)]
      = .error (.invalidPermsOption 778) :=
  ⟨(claim_C4 "/zosmf/restfiles/" "FSNAME" _).1 (-1) (by decide) (by decide),
   (claim_C4 "/zosmf/restfiles/" "FSNAME" _).2.1 "cylsPri" 1677755513
     (by decide) (by decide) (by decide),
   (claim_C4 "/zosmf/restfiles/" "FSNAME" [("perms", 778)]).2.2.1 778 []
     (by decide)⟩

/-! ### Step characterization lemmas for `create_data_set` -/

theorem except_bind_ok {ε α β : Type} {x : Except ε α} {f : α → Except ε β} {b : β}
    (h : x.bind f = .ok b) : ∃ a, x = .ok a ∧ f a = .ok b := by
  cases x with
  | error e => simp [Except.bind] at h
  | ok a => exact ⟨a, rfl, h⟩

theorem isErr_map {ε α β : Type} (f : α → β) (x : Except ε α) :
    isErr (x.map f) = isErr x := by
  cases x <;> rfl

theorem ds_eta_alcunit {o : DatasetOptions} {a : String} (h : o.alcunit = some a) :
    { o with alcunit := some a } = o := by
  cases o; simp_all

theorem ds_eta_recfm {o : DatasetOptions} {r : String} (h : o.recfm = some r) :
    { o with recfm := some r } = o := by
  cases o; simp_all

theorem step_dsorg_ok {o o' : DatasetOptions} (h : step_dsorg o = .ok o') :
    o' = o := by
  cases hd : o.dsorg with
  | none =>
    simp only [step_dsorg, hd, Except.ok.injEq] at h
    exact h.symm
  | some d =>
    simp only [step_dsorg, hd] at h
    split at h
    · simp only [Except.ok.injEq] at h
      exact h.symm
    · simp at h

theorem step_primary_ok {o o' : DatasetOptions} (h : step_primary o = .ok o') :
    o' = o := by
  cases hp : o.primary with
  | none =>
    simp only [step_primary, hp, Except.ok.injEq] at h
    exact h.symm
  | some p =>
    simp only [step_primary, hp] at h
    split at h
    · simp at h
    · simp only [Except.ok.injEq] at h
      exact h.symm

theorem step_primary_err_big {o : DatasetOptions} {p : Int} (hp : o.primary = some p)
    (hbig : 16777215 < p) : step_primary o = .error (.primaryTooLarge, o) := by
  simp only [step_primary, hp]
  rw [if_pos hbig]

theorem step_alcunit_ok {o o' : DatasetOptions} (h : step_alcunit o = .ok o') :
    o' = { o with alcunit := some (o.alcunit.getD "TRK") } := by
  cases ha : o.alcunit with
  | none =>
    simp only [step_alcunit, ha, Except.ok.injEq] at h
    simpa using h.symm
  | some a =>
    simp only [step_alcunit, ha] at h
    split at h
    · simp only [Except.ok.injEq] at h
      simp only [Option.getD_some, ds_eta_alcunit ha]
      exact h.symm
    · simp at h

theorem step_secondary_ok {o o' : DatasetOptions} (h : step_secondary o = .ok o') :
    o' = o ∨ ∃ p, o.primary = some p ∧ o.secondary = none ∧
      o' = { o with secondary := some (Int.tdiv p 10) } := by
  cases hp : o.primary with
  | none =>
    simp only [step_secondary, hp, Except.ok.injEq] at h
    exact Or.inl h.symm
  | some p =>
    cases hs : o.secondary with
    | none =>
      simp only [step_secondary, hp, hs] at h
      split at h
      · simp at h
      · simp only [Except.ok.injEq] at h
        exact Or.inr ⟨p, rfl, rfl, h.symm⟩
    | some s =>
      simp only [step_secondary, hp, hs] at h
      split at h
      · simp at h
      · simp only [Except.ok.injEq] at h
        exact Or.inl h.symm

theorem step_secondary_ok_none {o o' : DatasetOptions} {p : Int}
    (hp : o.primary = some p) (hs : o.secondary = none)
    (h : step_secondary o = .ok o') :
    o' = { o with secondary := some (Int.tdiv p 10) } := by
  simp only [step_secondary, hp, hs] at h
  split at h
  · simp at h
  · simp only [Except.ok.injEq] at h
    rw [hp]
    exact h.symm

theorem step_secondary_err_explicit {o : DatasetOptions} {p s : Int}
    (hp : o.primary = some p) (hs : o.secondary = some s) (hbig : 16777215 < s) :
    step_secondary o = .error (.secondaryTooLarge, o) := by
  simp only [step_secondary, hp, hs]
  rw [if_pos hbig]

theorem step_dirblk_ok {o o' : DatasetOptions} (h : step_dirblk o = .ok o') :
    o' = o := by
  cases hd : o.dirblk with
  | none =>
    simp only [step_dirblk, hd, Except.ok.injEq] at h
    exact h.symm
  | some d =>
    simp only [step_dirblk, hd] at h
    split at h
    · split at h
      · simp at h
      · simp only [Except.ok.injEq] at h
        exact h.symm
    · split at h
      · split at h
        · simp at h
        · simp only [Except.ok.injEq] at h
          exact h.symm
      · simp only [Except.ok.injEq] at h
        exact h.symm

theorem step_recfm_ok {o o' : DatasetOptions} (h : step_recfm o = .ok o') :
    o' = { o with recfm := some (o.recfm.getD "F") } := by
  cases hr : o.recfm with
  | none =>
    simp only [step_recfm, hr, Except.ok.injEq] at h
    simpa using h.symm
  | some r =>
    simp only [step_recfm, hr] at h
    split at h
    · simp only [Except.ok.injEq] at h
      simp only [Option.getD_some, ds_eta_recfm hr]
      exact h.symm
    · simp at h

theorem step_blksize_spec (o : DatasetOptions) :
    (step_blksize o).blksize
        = (match o.blksize with | some b => some b | none => o.lrecl) ∧
    (step_blksize o).alcunit = o.alcunit ∧
    (step_blksize o).recfm = o.recfm ∧
    (step_blksize o).secondary = o.secondary := by
  unfold step_blksize
  cases hb : o.blksize with
  | some b => exact ⟨hb, rfl, rfl, rfl⟩
  | none =>
    cases hl : o.lrecl with
    | some l => exact ⟨rfl, rfl, rfl, rfl⟩
    | none => exact ⟨hb, rfl, rfl, rfl⟩

/-! ### C6: effect of validation on the caller's mapping -/

theorem framePreserved_refl (o : DatasetOptions) : framePreserved o o :=
  ⟨rfl, rfl, rfl, fun _ h => h, rfl, fun _ h => h, rfl, rfl, fun _ h => h,
   fun _ h => h, rfl, rfl, rfl, rfl, rfl, rfl⟩

theorem framePreserved_trans {o1 o2 o3 : DatasetOptions}
    (h12 : framePreserved o1 o2) (h23 : framePreserved o2 o3) :
    framePreserved o1 o3 := by
  obtain ⟨a1, a2, a3, a4, a5, a6, a7, a8, a9, a10, a11, a12, a13, a14, a15, a16⟩ := h12
  obtain ⟨b1, b2, b3, b4, b5, b6, b7, b8, b9, b10, b11, b12, b13, b14, b15, b16⟩ := h23
  exact ⟨b1.trans a1, b2.trans a2, b3.trans a3, fun a h => b4 a (a4 a h),
    b5.trans a5, fun s h => b6 s (a6 s h), b7.trans a7, b8.trans a8,
    fun r h => b9 r (a9 r h), fun b h => b10 b (a10 b h), b11.trans a11,
    b12.trans a12, b13.trans a13, b14.trans a14, b15.trans a15, b16.trans a16⟩

theorem framePreserved_set_alcunit (o : DatasetOptions) (v : String)
    (h : o.alcunit = none) :
    framePreserved o { o with alcunit := some v } := by
  refine ⟨rfl, rfl, rfl, ?_, rfl, fun _ hx => hx, rfl, rfl, fun _ hx => hx,
    fun _ hx => hx, rfl, rfl, rfl, rfl, rfl, rfl⟩
  intro a ha
  rw [h] at ha
  cases ha

theorem framePreserved_set_secondary (o : DatasetOptions) (v : Int)
    (h : o.secondary = none) :
    framePreserved o { o with secondary := some v } := by
  refine ⟨rfl, rfl, rfl, fun _ hx => hx, rfl, ?_, rfl, rfl, fun _ hx => hx,
    fun _ hx => hx, rfl, rfl, rfl, rfl, rfl, rfl⟩
  intro s hs
  rw [h] at hs
  cases hs

theorem framePreserved_set_recfm (o : DatasetOptions) (v : String)
    (h : o.recfm = none) :
    framePreserved o { o with recfm := some v } := by
  refine ⟨rfl, rfl, rfl, fun _ hx => hx, rfl, fun _ hx => hx, rfl, rfl, ?_,
    fun _ hx => hx, rfl, rfl, rfl, rfl, rfl, rfl⟩
  intro r hr
  rw [h] at hr
  cases hr

theorem framePreserved_set_blksize (o : DatasetOptions) (v : Int)
    (h : o.blksize = none) :
    framePreserved o { o with blksize := some v } := by
  refine ⟨rfl, rfl, rfl, fun _ hx => hx, rfl, fun _ hx => hx, rfl, rfl,
    fun _ hx => hx, ?_, rfl, rfl, rfl, rfl, rfl, rfl⟩
  intro b hb
  rw [h] at hb
  cases hb

theorem resultState_bind_frame {x : Except (CreateDsError × DatasetOptions) DatasetOptions}
    {f : DatasetOptions → Except (CreateDsError × DatasetOptions) DatasetOptions}
    {o : DatasetOptions}
    (hx : framePreserved o (resultState x))
    (hok : ∀ o1, x = .ok o1 → framePreserved o1 (resultState (f o1))) :
    framePreserved o (resultState (x.bind f)) := by
  cases x with
  | error e => exact hx
  | ok o1 => exact framePreserved_trans hx (hok o1 rfl)

theorem step_dsorg_frame (o : DatasetOptions) :
    framePreserved o (resultState (step_dsorg o)) := by
  cases hd : o.dsorg with
  | none =>
    simp only [step_dsorg, hd]
    exact framePreserved_refl o
  | some d =>
    simp only [step_dsorg, hd]
    split
    · exact framePreserved_refl o
    · exact framePreserved_refl o

theorem step_alcunit_frame (o : DatasetOptions) :
    framePreserved o (resultState (step_alcunit o)) := by
  cases ha : o.alcunit with
  | none =>
    simp only [step_alcunit, ha]
    exact framePreserved_set_alcunit o "TRK" ha
  | some a =>
    simp only [step_alcunit, ha]
    split
    · exact framePreserved_refl o
    · exact framePreserved_refl o

theorem step_primary_frame (o : DatasetOptions) :
    framePreserved o (resultState (step_primary o)) := by
  cases hp : o.primary with
  | none =>
    simp only [step_primary, hp]
    exact framePreserved_refl o
  | some p =>
    simp only [step_primary, hp]
    split
    · exact framePreserved_refl o
    · exact framePreserved_refl o

theorem step_secondary_frame (o : DatasetOptions) :
    framePreserved o (resultState (step_secondary o)) := by
  cases hp : o.primary with
  | none =>
    simp only [step_secondary, hp]
    exact framePreserved_refl o
  | some p =>
    cases hs : o.secondary with
    | none =>
      simp only [step_secondary, hp, hs]
      have h2 := framePreserved_set_secondary o (Int.tdiv p 10) hs
      rw [hp] at h2
      split
      · exact h2
      · exact h2
    | some s =>
      simp only [step_secondary, hp, hs]
      split
      · exact framePreserved_refl o
      · exact framePreserved_refl o

theorem step_dirblk_frame (o : DatasetOptions) :
    framePreserved o (resultState (step_dirblk o)) := by
  cases hd : o.dirblk with
  | none =>
    simp only [step_dirblk, hd]
    exact framePreserved_refl o
  | some d =>
    simp only [step_dirblk, hd]
    split
    · split
      · exact framePreserved_refl o
      · exact framePreserved_refl o
    · split
      · split
        · exact framePreserved_refl o
        · exact framePreserved_refl o
      · exact framePreserved_refl o

theorem step_recfm_frame (o : DatasetOptions) :
    framePreserved o (resultState (step_recfm o)) := by
  cases hr : o.recfm with
  | none =>
    simp only [step_recfm, hr]
    exact framePreserved_set_recfm o "F" hr
  | some r =>
    simp only [step_recfm, hr]
    split
    · exact framePreserved_refl o
    · exact framePreserved_refl o

theorem step_blksize_frame (o : DatasetOptions) :
    framePreserved o (step_blksize o) := by
  cases hb : o.blksize with
  | some b =>
    simp only [step_blksize, hb]
    exact framePreserved_refl o
  | none =>
    cases hl : o.lrecl with
    | some l =>
      simp only [step_blksize, hb, hl]
      have h2 := framePreserved_set_blksize o l hb
      rwa [hl] at h2
    | none =>
      simp only [step_blksize, hb, hl]
      exact framePreserved_refl o

/-- C6 counterexample: `create_data_set` mutates the caller's mapping.
With `{primary: 1, lrecl: 80}` validation succeeds and the caller's dict
has gained `alcunit`, `secondary`, `recfm` and `blksize`; with
`{primary: 1, lrecl: 80, recfm: "X"}` validation fails on `recfm` after
`alcunit` and `secondary` were already written into the mapping, so a
failed call does leave partial modifications behind. -/
theorem claim_C6_counterexample :
    normalize_dataset_options { primary := some 1, lrecl := some 80 }
      = .ok { primary := some 1, lrecl := some 80, alcunit := some "TRK",
              secondary := some 0, recfm := some "F", blksize := some 80 } ∧
    ({ primary := some 1, lrecl := some 80, alcunit := some "TRK",
       secondary := some 0, recfm := some "F", blksize := some 80 }
        : DatasetOptions)
      ≠ { primary := some 1, lrecl := some 80 } ∧
    normalize_dataset_options { primary := some 1, lrecl := some 80, recfm := some "X" }
      = .error (.invalidRecfm, { primary := some 1, lrecl := some 80, recfm := some "X", alcunit := some "TRK", secondary := some 0 }) ∧
    ({ primary := some 1, lrecl := some 80, recfm := some "X",
       alcunit := some "TRK", secondary := some 0 } : DatasetOptions)
      ≠ { primary := some 1, lrecl := some 80, recfm := some "X" } :=
  ⟨rfl, by decide, rfl, by decide⟩

/-- C6 (amended): the validation/normalization of `create_data_set` has no
effect on the caller's mapping other than filling the normalized keys
`alcunit`, `secondary`, `recfm`, `blksize` when they are unset: whether the
call succeeds or raises partway, every key the caller set keeps its value
and every other key is untouched — but the filled-in defaults do remain in
the caller's mapping, also on a failed call. -/
theorem claim_C6 (o : DatasetOptions) :
    framePreserved o (resultState (normalize_dataset_options o)) := by
  cases hl : o.like with
  | some l =>
    simp only [normalize_dataset_options, hl]
    exact framePreserved_refl o
  | none =>
    simp only [normalize_dataset_options, hl]
    split
    · exact framePreserved_refl o
    · refine resultState_bind_frame (step_dsorg_frame o) ?_
      intro o1 _
      refine resultState_bind_frame (step_alcunit_frame o1) ?_
      intro o2 _
      refine resultState_bind_frame (step_primary_frame o2) ?_
      intro o3 _
      refine resultState_bind_frame (step_secondary_frame o3) ?_
      intro o4 _
      refine resultState_bind_frame (step_dirblk_frame o4) ?_
      intro o5 _
      refine resultState_bind_frame (step_recfm_frame o5) ?_
      intro o6 _
      exact step_blksize_frame o6

/-! ### C1: required options and normalization defaults -/

/-- C1: with no `like` key, `create_data_set` fails with the
missing-required `ValueError` (the spec's `MissingRequiredOption` kind)
when `primary` or `lrecl` is absent, before any request is built;
otherwise, whenever validation succeeds, normalization fills
`alcunit="TRK"`, `recfm="F"` and `blksize=lrecl` for exactly those of these
options that were unset (a set option keeps the caller's value), and the
POST request carries the normalized options. -/
theorem claim_C1 (ep name : String) (o : DatasetOptions) (hlike : o.like = none) :
    ((o.primary = none ∨ o.lrecl = none) →
      create_data_set ep name o = .error (.missingPrimaryLrecl, o)) ∧
    (∀ o', normalize_dataset_options o = .ok o' →
      o'.alcunit = some (o.alcunit.getD "TRK") ∧
      o'.recfm = some (o.recfm.getD "F") ∧
      o'.blksize = (match o.blksize with | some b => some b | none => o.lrecl) ∧
      create_data_set ep name o
        = .ok { method := "POST", url := ep ++ "ds/" ++ name,
                body := .dsOptions o', expected := some [201] }) := by
  constructor
  · intro h
    simp only [create_data_set, normalize_dataset_options, hlike]
    rw [if_pos h]
    rfl
  · intro o' hmain
    have h := hmain
    simp only [normalize_dataset_options, hlike] at h
    split at h
    · simp at h
    · obtain ⟨o1, h1, h⟩ := except_bind_ok h
      obtain ⟨o2, h2, h⟩ := except_bind_ok h
      obtain ⟨o3, h3, h⟩ := except_bind_ok h
      obtain ⟨o4, h4, h⟩ := except_bind_ok h
      obtain ⟨o5, h5, h⟩ := except_bind_ok h
      obtain ⟨o6, h6, h⟩ := except_bind_ok h
      simp only [Except.ok.injEq] at h
      rw [step_dsorg_ok h1] at h2
      rw [step_alcunit_ok h2] at h3
      rw [step_primary_ok h3] at h4
      have hlast : create_data_set ep name o
          = .ok { method := "POST", url := ep ++ "ds/" ++ name,
                  body := .dsOptions o', expected := some [201] } := by
        simp only [create_data_set, hmain]
        rfl
      rcases step_secondary_ok h4 with e4 | ⟨p, hp4, hs4, e4⟩ <;>
        rw [e4] at h5 <;>
        rw [step_dirblk_ok h5] at h6 <;>
        rw [step_recfm_ok h6] at h <;>
        exact ⟨by rw [← h, (step_blksize_spec _).2.1],
               by rw [← h, (step_blksize_spec _).2.2.1],
               by rw [← h, (step_blksize_spec _).1], hlast⟩

theorem claim_C1_witness :
    create_data_set "/zosmf/restfiles/" "MY.DSN" { primary := some 1, lrecl := some 80 }
      = .ok { method := "POST", url := "/zosmf/restfiles/" ++ "ds/" ++ "MY.DSN",
              body := .dsOptions { primary := some 1, lrecl := some 80, alcunit := some "TRK", secondary := some 0, recfm := some "F", blksize := some 80 },
              expected := some [201] } ∧
    create_data_set "/zosmf/restfiles/" "MY.DSN" { lrecl := some 80 }
      = .error (.missingPrimaryLrecl, { lrecl := some 80 }) :=
  ⟨((claim_C1 "/zosmf/restfiles/" "MY.DSN"
      { primary := some 1, lrecl := some 80 } rfl).2
      { primary := some 1, lrecl := some 80, alcunit := some "TRK", secondary := some 0, recfm := some "F", blksize := some 80 } rfl).2.2.2,
   (claim_C1 "/zosmf/restfiles/" "MY.DSN" { lrecl := some 80 } rfl).1 (Or.inl rfl)⟩

/-! ### C2: size bounds and the derived `secondary` -/

/-- C2 counterexample: the claim quantifies over every `create_data_set`
call, but with `like` present the validation loop is skipped entirely, so
`primary = 16777216 > 16777215` builds a request instead of failing.
Moreover the derived `secondary` is `int(primary/10)`, truncation toward
zero, not floor: for `primary = -5` the code stores `0` while
`floor(-5/10) = -1`. -/
theorem claim_C2_counterexample :
    isErr (create_data_set "/zosmf/restfiles/" "DS"
      { like := some "MODEL.DSN", primary := some 16777216 }) = false ∧
    (match normalize_dataset_options { primary := some (-5), lrecl := some 80 } with
      | .ok o' => o'.secondary
      | .error _ => none) = some 0 ∧
    Int.fdiv (-5) 10 = -1 ∧ (some 0 : Option Int) ≠ some (Int.fdiv (-5) 10) :=
  ⟨rfl, rfl, rfl, by decide⟩

/-- C2 (amended): restricted to `create_data_set` calls without `like` (with
`like` present the validation loop is skipped): a `primary` above 16,777,215
always makes the call fail before any request is built, whether or not
`secondary` is supplied, and so does an explicit `secondary` above
16,777,215; when validation succeeds with `primary` present and `secondary`
absent, the normalized `secondary` is `primary` divided by 10 truncated
toward zero (which is `floor(primary/10)` for nonnegative `primary`; in
particular `primary=100` yields `secondary=10`). -/
theorem claim_C2 (ep name : String) (o : DatasetOptions) (hlike : o.like = none) :
    (∀ p : Int, o.primary = some p → 16777215 < p →
      isErr (create_data_set ep name o) = true) ∧
    (∀ s : Int, o.secondary = some s → 16777215 < s →
      isErr (create_data_set ep name o) = true) ∧
    (∀ (o' : DatasetOptions) (p : Int), normalize_dataset_options o = .ok o' →
      o.primary = some p → o.secondary = none →
      o'.secondary = some (Int.tdiv p 10)) := by
  refine ⟨?_, ?_, ?_⟩
  · intro p hp hbig
    simp only [create_data_set, isErr_map]
    simp only [normalize_dataset_options, hlike]
    split
    · rfl
    · cases h1 : step_dsorg o with
      | error e => rfl
      | ok o1 =>
        simp only [Except.bind]
        rw [step_dsorg_ok h1]
        cases h2 : step_alcunit o with
        | error e => rfl
        | ok o2 =>
          simp only [Except.bind]
          rw [step_alcunit_ok h2]
          rw [step_primary_err_big
            (show ({ o with alcunit := some (o.alcunit.getD "TRK") }).primary
              = some p from hp) hbig]
          rfl
  · intro s hs hbig
    simp only [create_data_set, isErr_map]
    simp only [normalize_dataset_options, hlike]
    split
    · rfl
    · rename_i hcond
      push_neg at hcond
      obtain ⟨p, hp⟩ := Option.ne_none_iff_exists'.mp hcond.1
      cases h1 : step_dsorg o with
      | error e => rfl
      | ok o1 =>
        simp only [Except.bind]
        rw [step_dsorg_ok h1]
        cases h2 : step_alcunit o with
        | error e => rfl
        | ok o2 =>
          simp only [Except.bind]
          rw [step_alcunit_ok h2]
          cases h3 : step_primary { o with alcunit := some (o.alcunit.getD "TRK") } with
          | error e => rfl
          | ok o3 =>
            simp only [Except.bind]
            rw [step_primary_ok h3]
            rw [step_secondary_err_explicit
              (show ({ o with alcunit := some (o.alcunit.getD "TRK") }).primary
                = some p from hp)
              (show ({ o with alcunit := some (o.alcunit.getD "TRK") }).secondary
                = some s from hs) hbig]
            rfl
  · intro o' p hmain hp hs
    have h := hmain
    simp only [normalize_dataset_options, hlike] at h
    split at h
    · simp at h
    · obtain ⟨o1, h1, h⟩ := except_bind_ok h
      obtain ⟨o2, h2, h⟩ := except_bind_ok h
      obtain ⟨o3, h3, h⟩ := except_bind_ok h
      obtain ⟨o4, h4, h⟩ := except_bind_ok h
      obtain ⟨o5, h5, h⟩ := except_bind_ok h
      obtain ⟨o6, h6, h⟩ := except_bind_ok h
      simp only [Except.ok.injEq] at h
      rw [step_dsorg_ok h1] at h2
      rw [step_alcunit_ok h2] at h3
      rw [step_primary_ok h3] at h4
      have e4 := step_secondary_ok_none
        (show ({ o with alcunit := some (o.alcunit.getD "TRK") }).primary
          = some p from hp)
        (show ({ o with alcunit := some (o.alcunit.getD "TRK") }).secondary
          = none from hs) h4
      rw [e4] at h5
      rw [step_dirblk_ok h5] at h6
      rw [step_recfm_ok h6] at h
      rw [← h, (step_blksize_spec _).2.2.2]

theorem claim_C2_witness :
    ({ primary := some 100, lrecl := some 80, alcunit := some "TRK", secondary := some 10, recfm := some "F", blksize := some 80 }
        : DatasetOptions).secondary = some (Int.tdiv 100 10) ∧
    isErr (create_data_set "/zosmf/restfiles/" "DS"
      { primary := some 16777216, lrecl := some 80 }) = true ∧
    isErr (create_data_set "/zosmf/restfiles/" "DS"
      { primary := some 100, secondary := some 16777216, lrecl := some 80 }) = true :=
  ⟨(claim_C2 "/zosmf/restfiles/" "DS" { primary := some 100, lrecl := some 80 }
      rfl).2.2
      { primary := some 100, lrecl := some 80, alcunit := some "TRK", secondary := some 10, recfm := some "F", blksize := some 80 }
      100 rfl rfl rfl,
   (claim_C2 "/zosmf/restfiles/" "DS" { primary := some 16777216, lrecl := some 80 }
      rfl).1 16777216 rfl (by decide),
   (claim_C2 "/zosmf/restfiles/" "DS"
      { primary := some 100, secondary := some 16777216, lrecl := some 80 }
      rfl).2.1 16777216 rfl (by decide)⟩

end ZowePySdk
